import Mathlib

/-!
A shallow embedding of the `adversarial-variational-bayes` repository
(`src/utils/datasets.py`, `src/avb/models/networks/encoder.py`,
`src/launcher.py`) together with theorems settling the claims about it.

Modelling conventions:
* numpy arrays become lists (`List ℚ` for one-dimensional float arrays,
  `List (List ℚ)` for two-dimensional ones, `List ℤ` for integer arrays);
* floating point values become rationals — the claims under study are
  structural (shapes, membership, exact cancellation), not about rounding;
* the framework exponential `ker.exp` and the random sampler
  `np.random.binomial` are abstracted as function parameters;
* fallible code (exceptions, out-of-range numpy index assignment) returns
  `Option` and `Except`.
-/

namespace AVB

/-! ### `src/utils/datasets.py` -/

/-- A dataset as returned by the loaders: `{data: array[N, D], target: array[N]}`. -/
structure Npoints where
  data : List (List ℚ)
  target : List ℕ
deriving Repr, DecidableEq

/-- Row `i` of the `n × n` identity matrix `np.eye(n)`. -/
def eyeRow (n i : ℕ) : List ℚ :=
  (List.range n).map (fun j => if i = j then 1 else 0)

/-- The identity matrix `np.eye(n)` as a list of rows. -/
def eye (n : ℕ) : List (List ℚ) :=
  (List.range n).map (eyeRow n)

/-- `np.repeat(l, k, axis=0)`: each row of `l` repeated `k` times consecutively. -/
def repeatRows (k : ℕ) : List α → List α
  | [] => []
  | r :: rs => List.replicate k r ++ repeatRows k rs

/-- `load_npoints` from `src/utils/datasets.py`:
`{'data': np.repeat(np.eye(n), 512, axis=0), 'target': np.repeat(np.arange(n), 512, axis=0)}`. -/
def load_npoints (n : ℕ := 4) : Npoints :=
  { data := repeatRows 512 (eye n), target := repeatRows 512 (List.range n) }

/-- The result of `load_8schools`: arrays keyed `effect` and `stderr`. -/
structure EightSchools where
  effect : List ℚ
  stderr : List ℚ
deriving Repr, DecidableEq

/-- `load_8schools` from `src/utils/datasets.py`, with the in-code literal
arrays (the second effect entry is `7.74` in the code, while the docstring
table above it reads `7.94`). -/
def load_8schools : EightSchools :=
  { effect := [28.39, 7.74, -2.75, 6.82, -0.64, 0.63, 18.01, 12.16],
    stderr := [14.9, 10.2, 16.3, 11.0, 9.4, 11.4, 10.4, 17.6] }

/-- The string tag for `binarise`'s default mode. -/
def samplingMode : String := "sampling"

/-- The string tag for `binarise`'s deterministic mode. -/
def thresholdMode : String := "threshold"

/-- `binarise` (inner function of `load_mnist`): in `'sampling'` mode it draws
Bernoulli samples (`np.random.binomial`, abstracted as the `sample` argument);
in `'threshold'` mode it maps each entry to `1` when strictly above the
threshold (`kwargs.get('threshold', 0.3)`, modelled as an optional argument
with default `0.3`) and to `0` otherwise; any other mode falls off the end of
the `if/elif` chain and yields Python `None`, modelled as `none`. -/
def binarise (sample : List (List ℚ) → List (List ℤ)) (raw_data : List (List ℚ))
    (mode : String := samplingMode) (th : Option ℚ := none) : Option (List (List ℤ)) :=
  if mode = samplingMode then
    some (sample raw_data)
  else if mode = thresholdMode then
    let threshold := th.getD 0.3
    some (raw_data.map (fun row => row.map (fun x => if threshold < x then 1 else 0)))
  else
    none

/-- `convert_to_one_hot` (inner function of `load_mnist`): builds a zero matrix
with `n_uniques = len(np.unique(raw_target))` columns and writes a `1` at
column `raw_target[i]` of row `i`.  When some label is out of range the numpy
fancy-index assignment raises `IndexError`, modelled as `none`. -/
def convert_to_one_hot (raw_target : List ℕ) : Option (List (List ℕ)) :=
  if raw_target.all (fun t => t < raw_target.dedup.length) then
    some (raw_target.map (fun t =>
      (List.range raw_target.dedup.length).map (fun j => if j = t then 1 else 0)))
  else
    none

/-- Where `load_mnist` obtains its raw images and labels: the mldata fetch, the
tensorflow tutorial fallback (taken after an `HTTPError`; there the reader
itself performs any one-hot conversion), or a local file path (which may or
may not exist). -/
inductive MnistSource where
  | mldata (data : List (List ℚ)) (target : List ℕ)
  | tfFallback (data : List (List ℚ)) (target : List ℕ)
  | localFile (pathExists : Bool) (data : List (List ℚ)) (target : List ℕ)
deriving Repr

/-- The `data` field of `load_mnist`'s result: either the raw pixel array or
the value produced by `binarise` (which in principle could be Python `None`). -/
inductive MnistArray where
  | raw (a : List (List ℚ))
  | binarised (a : Option (List (List ℤ)))
deriving Repr, DecidableEq

/-- The `target` field of `load_mnist`'s result: raw labels or the value
produced by `convert_to_one_hot`. -/
inductive MnistTarget where
  | raw (t : List ℕ)
  | oneHot (t : Option (List (List ℕ)))
deriving Repr, DecidableEq

/-- The dict returned by `load_mnist`. -/
structure MnistResult where
  data : MnistArray
  target : MnistTarget
deriving Repr, DecidableEq

/-- `load_mnist` from `src/utils/datasets.py`.  Every branch that binarises
calls `binarise(..., mode='threshold', threshold=0.2)`; a missing local path
raises `ValueError`.  The raw arrays of each branch are supplied by the
`MnistSource`, and the Bernoulli sampler is the abstract `sample`. -/
def load_mnist (sample : List (List ℚ) → List (List ℤ)) (src : MnistSource)
    (one_hot : Bool := true) (binarised : Bool := true) : Except String MnistResult :=
  match src with
  | .mldata d t =>
      Except.ok
        { data := if binarised then .binarised (binarise sample d thresholdMode (some 0.2)) else .raw d,
          target := if one_hot then .oneHot (convert_to_one_hot t) else .raw t }
  | .tfFallback d t =>
      Except.ok
        { data := if binarised then .binarised (binarise sample d thresholdMode (some 0.2)) else .raw d,
          target := .raw t }
  | .localFile pathExists d t =>
      if pathExists then
        Except.ok
          { data := if binarised then .binarised (binarise sample d thresholdMode (some 0.2)) else .raw d,
            target := if one_hot then .oneHot (convert_to_one_hot t) else .raw t }
      else
        Except.error "Path to locally stored MNIST does not exist."

/-! ### `src/avb/models/networks/encoder.py` -/

/-- Three-way pointwise zip, for elementwise tensor operations. -/
def zipWith3 (f : α → β → γ → δ) : List α → List β → List γ → List δ
  | a :: as, b :: bs, c :: cs => f a b c :: zipWith3 f as bs cs
  | _, _, _ => []

/-- The `Lambda` layer of `ReparametrisedGaussianEncoder.__init__`:
`x[0] + ker.exp(x[1] / 2.0) * x[2]` applied elementwise to
`[latent_mean, latent_log_var, noise_input]`, with the framework exponential
abstracted as `expF`. -/
def reparametrisedLatent (expF : ℚ → ℚ) (mean logVar noise : List ℚ) : List ℚ :=
  zipWith3 (fun m lv e => m + expF (lv / 2) * e) mean logVar noise

/-- `ReparametrisedGaussianEncoder`: `net` abstracts the architecture body
returned by `get_network_by_name['reparametrised_encoder']`, mapping the data
input to the pair `(latent_mean, latent_log_var)`; `expF` abstracts `ker.exp`.
Both Keras models built in `__init__` are views over this single network. -/
structure ReparametrisedGaussianEncoder where
  net : List ℚ → List ℚ × List ℚ
  expF : ℚ → ℚ

/-- The `encoder_inference_model`: data and noise in, latent factors out. -/
def ReparametrisedGaussianEncoder.inferenceModel (E : ReparametrisedGaussianEncoder)
    (data noise : List ℚ) : List ℚ :=
  reparametrisedLatent E.expF (E.net data).1 (E.net data).2 noise

/-- The `encoder_learning_model`: outputs `[latent_factors, latent_mean, latent_log_var]`. -/
def ReparametrisedGaussianEncoder.learningModel (E : ReparametrisedGaussianEncoder)
    (data noise : List ℚ) : List ℚ × List ℚ × List ℚ :=
  (E.inferenceModel data noise, (E.net data).1, (E.net data).2)

/-- The two possible results of `ReparametrisedGaussianEncoder.__call__`. -/
inductive RepEncOutput where
  | learning (latent mean logVar : List ℚ)
  | inference (latent : List ℚ)
deriving Repr, DecidableEq

/-- `ReparametrisedGaussianEncoder.__call__`: dispatches on
`kwargs.get('is_learning', True)` between the learning model and the
inference model. -/
def ReparametrisedGaussianEncoder.call (E : ReparametrisedGaussianEncoder)
    (data noise : List ℚ) (is_learning : Bool := true) : RepEncOutput :=
  if is_learning then
    .learning (E.learningModel data noise).1 (E.learningModel data noise).2.1
      (E.learningModel data noise).2.2
  else
    .inference (E.inferenceModel data noise)

/-- `MomentEstimationEncoder`: the architecture body returned by
`get_network_by_name['moment_estimation_encoder']` produces the latent factors
(a function of the data and noise inputs, wrapped as `encoder_model`) and the
empirical moments (a function of the data and sampling inputs, wrapped as
`moment_estimation_model`). -/
structure MomentEstimationEncoder where
  latentOf : List ℚ → List ℚ → List ℚ
  momentsOf : List ℚ → List ℚ → List ℚ × List ℚ

/-- The two possible results of `MomentEstimationEncoder.__call__`. -/
inductive MomentEncOutput where
  | encoded (latent : List ℚ)
  | moments (mean variance : List ℚ)
deriving Repr, DecidableEq

/-- `MomentEstimationEncoder.__call__`: dispatches on
`kwargs.get('estimate_moments', False)` between the moment-estimation model
(returning `[mean, var]`) and the plain encoder model. -/
def MomentEstimationEncoder.call (E : MomentEstimationEncoder)
    (data second : List ℚ) (estimate_moments : Bool := false) : MomentEncOutput :=
  if estimate_moments then
    .moments (E.momentsOf data second).1 (E.momentsOf data second).2
  else
    .encoded (E.latentOf data second)

/-! ### `src/launcher.py` -/

/-- The error raised by the launcher's `else` branches (`raise ValueError(...)`);
the spec's taxonomy calls this a `ConfigurationError`. -/
inductive LauncherError where
  | valueError (msg : String)
deriving Repr, DecidableEq

/-- The message of the launcher's `ValueError`. -/
def unknownModelMsg : String :=
  "Unknown model type. Supported models: `vae`, `avb` and `avb+ac`."

/-- The observable side effects a launcher function performs, in order, after
constructing its trainer.  `savedArray` records a `numpy.save` call with the
file name and the row count of the saved array. -/
inductive Event where
  | runTraining
  | savedArray (name : String) (rows : ℕ)
  | plottedReconstructed
  | plottedLatent2d
  | plottedSampled
  | clearedSession
deriving Repr, DecidableEq

/-- File name of the saved reconstructions. -/
def reconstructedFile : String := "reconstructed_samples.npy"

/-- File name of the saved latent samples. -/
def latentFile : String := "latent_samples.npy"

/-- File name of the saved generations. -/
def generatedFile : String := "generated_samples.npy"

/-- Modelled from the spec: `avb/model_trainer.py` (absent from `src/`) yields a
trained model whose `reconstruct(data, batch_size, sampling_size)` replicates
each of the `n_inputs` inputs `sampling_size` times, so its output array has
`sampling_size * n_inputs` rows. -/
def reconstruct_rows (n_inputs sampling_size : ℕ) : ℕ := sampling_size * n_inputs

/-- Modelled from the spec: `infer(data, batch_size, sampling_size)` on the
trained model (absent from `src/`) likewise replicates each input
`sampling_size` times, giving `sampling_size * n_inputs` output rows. -/
def infer_rows (n_inputs sampling_size : ℕ) : ℕ := sampling_size * n_inputs

/-- Modelled from the spec: `generate(n_samples, batch_size)` on the trained
model (absent from `src/`) produces one generated sample per requested sample,
i.e. `n_samples` output rows. -/
def generate_rows (n_samples : ℕ) : ℕ := n_samples

/-- The tail of `run_synthetic_experiment` shared by its three trainer
branches: training on the `load_npoints` data, then saving/plotting the
reconstructions (`sampling_size = 1000`), latent samples, and the
`generate(n_samples=100)` output, then `clear_session()`; finally the
directory returned by `trainer.run_training` (abstracted as `model_dir`,
since the trainer is absent from `src/`) is returned. -/
def syntheticPostTraining (model_dir : String) : String × List Event :=
  let n_inputs := (load_npoints 4).data.length
  (model_dir,
    [Event.runTraining,
     Event.savedArray reconstructedFile (reconstruct_rows n_inputs 1000),
     Event.plottedReconstructed,
     Event.savedArray latentFile (infer_rows n_inputs 1000),
     Event.plottedLatent2d,
     Event.savedArray generatedFile (generate_rows 100),
     Event.plottedSampled,
     Event.clearedSession])

/-- `run_synthetic_experiment` from `src/launcher.py`: the `if/elif` chain over
the model name selects a trainer (the three trainers differ only in
hyperparameters, not modelled); any other name raises
`ValueError(unknownModelMsg)` before any training is run. -/
def run_synthetic_experiment (model_dir : String) (model : String := "vae") :
    Except LauncherError (String × List Event) :=
  if model = "vae" then Except.ok (syntheticPostTraining model_dir)
  else if model = "avb" then Except.ok (syntheticPostTraining model_dir)
  else if model = "avb+ac" then Except.ok (syntheticPostTraining model_dir)
  else Except.error (.valueError unknownModelMsg)

/-- The tail of `run_mnist_experiment` shared by its three trainer branches:
`latent_dim = 8`, `test_data_size = 100`, `sampling_size = 100`; the latent
scatter plot is only drawn when `latent_dim == 2`, and no `clear_session()`
call occurs before the return. -/
def mnistPostTraining (model_dir : String) : String × List Event :=
  let latent_dim : ℕ := 8
  let test_data_size : ℕ := 100
  let sampling_size : ℕ := 100
  (model_dir,
    [Event.runTraining,
     Event.savedArray reconstructedFile (reconstruct_rows test_data_size sampling_size),
     Event.plottedReconstructed,
     Event.savedArray latentFile (infer_rows test_data_size sampling_size)]
    ++ (if latent_dim = 2 then [Event.plottedLatent2d] else [])
    ++ [Event.savedArray generatedFile (generate_rows 100),
        Event.plottedSampled])

/-- `run_mnist_experiment` from `src/launcher.py`: the same `if/elif` dispatch
over the model name, with the MNIST hyperparameters. -/
def run_mnist_experiment (model_dir : String) (model : String := "vae") :
    Except LauncherError (String × List Event) :=
  if model = "vae" then Except.ok (mnistPostTraining model_dir)
  else if model = "avb" then Except.ok (mnistPostTraining model_dir)
  else if model = "avb+ac" then Except.ok (mnistPostTraining model_dir)
  else Except.error (.valueError unknownModelMsg)

/-! ### Helper lemmas -/

theorem repeatRows_length (k : ℕ) (l : List α) : (repeatRows k l).length = k * l.length := by
  induction l with
  | nil => simp [repeatRows]
  | cons r rs ih =>
      simp only [repeatRows, List.length_append, List.length_replicate, List.length_cons, ih]
      ring

theorem repeatRows_getElem? (k : ℕ) (l : List α) (i : ℕ) (hi : i < k * l.length) :
    (repeatRows k l)[i]? = l[i / k]? := by
  induction l generalizing i with
  | nil => simp at hi
  | cons r rs ih =>
      have hk : 0 < k := by
        by_contra h0
        have hz : k = 0 := by omega
        subst hz
        simp at hi
      rw [repeatRows, List.getElem?_append]
      by_cases h : i < k
      · have hdiv : i / k = 0 := Nat.div_eq_of_lt h
        simp [List.length_replicate, h, hdiv, List.getElem?_replicate]
      · have hle : k ≤ i := Nat.le_of_not_lt h
        have hlt : i - k < k * rs.length := by
          simp only [List.length_cons] at hi
          have hmul : k * (rs.length + 1) = k * rs.length + k := by ring
          omega
        have hdiv : i / k = (i - k) / k + 1 := Nat.div_eq_sub_div hk hle
        simp only [List.length_replicate]
        rw [if_neg h, ih (i - k) hlt, hdiv]
        simp

/-- Pointwise: when every noise entry is zero and the shapes agree, the
reparametrised latent collapses to the mean, whatever the exponential is. -/
theorem reparametrisedLatent_zero_noise (expF : ℚ → ℚ) :
    ∀ (mean logVar noise : List ℚ), logVar.length = mean.length →
      noise.length = mean.length → (∀ x ∈ noise, x = 0) →
      reparametrisedLatent expF mean logVar noise = mean := by
  intro mean
  induction mean with
  | nil =>
      intro logVar noise _ _ _
      cases logVar <;> cases noise <;> rfl
  | cons m ms ih =>
      intro logVar noise h1 h2 hz
      cases logVar with
      | nil => simp at h1
      | cons lv lvs =>
          cases noise with
          | nil => simp at h2
          | cons e es =>
              have he : e = 0 := hz e (by simp)
              have hz2 : ∀ x ∈ es, x = 0 := fun x hx => hz x (by simp [hx])
              simp only [List.length_cons, Nat.add_right_cancel_iff] at h1 h2
              show (m + expF (lv / 2) * e) :: reparametrisedLatent expF ms lvs es = m :: ms
              rw [he, mul_zero, add_zero, ih lvs es h1 h2 hz2]

/-- Evaluating `binarise` in `'threshold'` mode: the sampler is ignored and the
result is the elementwise indicator of exceeding the threshold. -/
theorem binarise_thresholdMode (sample : List (List ℚ) → List (List ℤ))
    (d : List (List ℚ)) (th : Option ℚ) :
    binarise sample d thresholdMode th =
      some (d.map (fun row => row.map (fun x => if th.getD 0.3 < x then 1 else 0))) := by
  have h : ¬(thresholdMode = samplingMode) := by decide
  simp [binarise, h]

/-- The sum of an indicator row over `List.range n` is `1` when the hot index
is in range. -/
theorem sum_indicator_range (n v : ℕ) (h : v < n) :
    ((List.range n).map (fun j => if j = v then (1 : ℕ) else 0)).sum = 1 := by
  induction n with
  | zero => omega
  | succ n ih =>
      rw [List.range_succ, List.map_append, List.sum_append]
      rcases Nat.lt_succ_iff_lt_or_eq.mp h with h2 | h2
      · have hne : n ≠ v := Nat.ne_of_gt h2
        simp [ih h2, hne]
      · subst h2
        have hz : ((List.range v).map (fun j => if j = v then (1 : ℕ) else 0)).sum = 0 := by
          apply List.sum_eq_zero
          intro x hx
          simp only [List.mem_map, List.mem_range] at hx
          obtain ⟨j, hj, rfl⟩ := hx
          simp [Nat.ne_of_lt hj]
        simp [hz]

/-! ### Claim theorems -/

/-- Claim C2: `load_npoints 4` returns `4 * 512 = 2048` data rows, organised as
512 consecutive copies of each row of the 4×4 identity matrix, with `target`
holding the correspondingly repeated indices `0..3`; and for every `n ≥ 1` the
`data` and `target` arrays both have `512 * n` rows. -/
theorem load_npoints_spec :
    ((load_npoints 4).data.length = 2048 ∧
      ∀ i, i < 2048 →
        (load_npoints 4).data[i]? = some (eyeRow 4 (i / 512)) ∧
        (load_npoints 4).target[i]? = some (i / 512)) ∧
    (∀ n, 1 ≤ n →
      (load_npoints n).data.length = (load_npoints n).target.length ∧
      (load_npoints n).data.length = 512 * n) := by
  have hlen : ∀ n : ℕ, (load_npoints n).data.length = 512 * n := by
    intro n
    simp [load_npoints, repeatRows_length, eye]
  have hlent : ∀ n : ℕ, (load_npoints n).target.length = 512 * n := by
    intro n
    simp [load_npoints, repeatRows_length]
  refine ⟨⟨by simpa using hlen 4, ?_⟩, fun n _ => ⟨by rw [hlen, hlent], hlen n⟩⟩
  intro i hi
  have heye : (eye 4).length = 4 := by simp [eye]
  have hidiv : i / 512 < 4 := by omega
  constructor
  · show (repeatRows 512 (eye 4))[i]? = _
    rw [repeatRows_getElem?]
    · simp [eye, List.getElem?_map, List.getElem?_range, hidiv]
    · rw [heye]
      omega
  · show (repeatRows 512 (List.range 4))[i]? = _
    rw [repeatRows_getElem?]
    · simp [List.getElem?_range, hidiv]
    · simpa using hi

/-- Witness for C2 at the concrete index `600` and size `n = 4`. -/
theorem load_npoints_spec_witness :
    (load_npoints 4).data[600]? = some (eyeRow 4 1) ∧
    (load_npoints 4).data.length = 512 * 4 := by
  constructor
  · exact (load_npoints_spec.1.2 600 (by norm_num)).1
  · exact (load_npoints_spec.2 4 (by norm_num)).2

/-- Claim C8: `load_8schools` returns 8 effects and 8 standard errors, the
second effect entry is the in-code literal `7.74`, and that value differs from
the `7.94` shown in the docstring table. -/
theorem load_8schools_spec :
    load_8schools.effect.length = 8 ∧
    load_8schools.stderr.length = 8 ∧
    load_8schools.effect[1]? = some (7.74 : ℚ) ∧
    (7.74 : ℚ) ≠ 7.94 :=
  ⟨rfl, rfl, rfl, by norm_num⟩

/-- Claim C3: the reparametrised Gaussian encoder computes its latent output
as `mean + exp(log_variance / 2) * noise` from the network's
`(mean, log-variance)` pair, and consequently, when every noise entry is `0`
(and the shapes agree), the inference-mode latent output is exactly the mean. -/
theorem reparametrised_encoder_zero_noise (E : ReparametrisedGaussianEncoder)
    (data noise : List ℚ)
    (hlv : (E.net data).2.length = (E.net data).1.length)
    (hn : noise.length = (E.net data).1.length)
    (hz : ∀ x ∈ noise, x = 0) :
    E.call data noise false =
      RepEncOutput.inference
        (reparametrisedLatent E.expF (E.net data).1 (E.net data).2 noise) ∧
    E.call data noise false = RepEncOutput.inference ((E.net data).1) := by
  refine ⟨rfl, ?_⟩
  show RepEncOutput.inference (E.inferenceModel data noise) = _
  rw [ReparametrisedGaussianEncoder.inferenceModel,
    reparametrisedLatent_zero_noise E.expF _ _ _ hlv hn hz]

/-- Witness for C3: a concrete two-dimensional encoder evaluated at zero noise. -/
theorem reparametrised_encoder_zero_noise_witness :
    ReparametrisedGaussianEncoder.call ⟨fun d => (d, d), fun x => x + 1⟩ [1, 2] [0, 0] false =
      RepEncOutput.inference [1, 2] :=
  (reparametrised_encoder_zero_noise ⟨fun d => (d, d), fun x => x + 1⟩ [1, 2] [0, 0]
    rfl rfl (by decide)).2

/-- Claim C4: `ReparametrisedGaussianEncoder.__call__` with `is_learning` true
(the default) returns the triple `(latent, mean, log-variance)`, with
`is_learning` false it returns the latent output alone, and both modes are
computed from the same underlying `(mean, log-variance)` network. -/
theorem reparametrised_encoder_modes (E : ReparametrisedGaussianEncoder)
    (data noise : List ℚ) :
    E.call data noise true =
      RepEncOutput.learning
        (reparametrisedLatent E.expF (E.net data).1 (E.net data).2 noise)
        ((E.net data).1) ((E.net data).2) ∧
    E.call data noise false =
      RepEncOutput.inference
        (reparametrisedLatent E.expF (E.net data).1 (E.net data).2 noise) ∧
    E.call data noise = E.call data noise true :=
  ⟨rfl, rfl, rfl⟩

/-- Claim C7: `MomentEstimationEncoder.__call__` with `estimate_moments` true
returns the `(mean, variance)` pair of the moment-estimation network applied
to the data and sampling-noise inputs; otherwise (and by default) it returns
the encoding. -/
theorem moment_estimation_encoder_modes (E : MomentEstimationEncoder)
    (data sampling : List ℚ) :
    E.call data sampling true =
      MomentEncOutput.moments (E.momentsOf data sampling).1 (E.momentsOf data sampling).2 ∧
    E.call data sampling false = MomentEncOutput.encoded (E.latentOf data sampling) ∧
    E.call data sampling = E.call data sampling false :=
  ⟨rfl, rfl, rfl⟩

/-- Claim C6: in `load_mnist`, thresholded binarisation with threshold `0.2`
produces arrays whose entries all lie in `{0, 1}`, and whenever one-hot
conversion of a label array produces a matrix, every row of it sums to
exactly `1`. -/
theorem mnist_binarise_one_hot_spec :
    (∀ sample d arr, binarise sample d thresholdMode (some 0.2) = some arr →
        ∀ row ∈ arr, ∀ x ∈ row, x = 0 ∨ x = 1) ∧
    (∀ t m, convert_to_one_hot t = some m → ∀ row ∈ m, row.sum = 1) := by
  constructor
  · intro sample d arr harr row hrow x hx
    rw [binarise_thresholdMode] at harr
    have hM := Option.some.inj harr
    subst hM
    simp only [List.mem_map] at hrow
    obtain ⟨r0, _, rfl⟩ := hrow
    simp only [List.mem_map] at hx
    obtain ⟨v, _, rfl⟩ := hx
    by_cases h : (Option.getD (some (0.2 : ℚ)) 0.3) < v
    · rw [if_pos h]
      exact Or.inr rfl
    · rw [if_neg h]
      exact Or.inl rfl
  · intro t m hm row hrow
    unfold convert_to_one_hot at hm
    split at hm
    case isTrue hall =>
      have h2 := Option.some.inj hm
      subst h2
      simp only [List.mem_map] at hrow
      obtain ⟨v, hv, rfl⟩ := hrow
      have hvlt : v < t.dedup.length := by
        simp only [List.all_eq_true, decide_eq_true_eq] at hall
        exact hall v hv
      exact sum_indicator_range _ v hvlt
    case isFalse => exact absurd hm (by simp)

/-- Witness for C6: the two statements instantiated at a concrete pixel array
and a concrete label array. -/
theorem mnist_binarise_one_hot_spec_witness :
    ((1 : ℤ) = 0 ∨ (1 : ℤ) = 1) ∧ [(1 : ℕ), 0].sum = 1 := by
  constructor
  · exact mnist_binarise_one_hot_spec.1 (fun a => a.map (fun row => row.map (fun _ => 1)))
      [[(0.5 : ℚ), 0.1]] [[1, 0]] (by rw [binarise_thresholdMode]; norm_num) [1, 0]
      (by decide) 1 (by decide)
  · exact mnist_binarise_one_hot_spec.2 [0, 1] [[1, 0], [0, 1]] (by decide) [1, 0] (by decide)

/-- Claim C10: `binarise` yields Python `None` (modelled `none`) for every mode
other than `'sampling'` and `'threshold'`; this branch is unreachable from
`load_mnist`, since every `binarise` call there passes `mode='threshold'` with
`threshold=0.2`: the result of `load_mnist` is independent of the random
sampler (the stochastic `'sampling'` default never runs), and the
binarisation it performs never yields `None`. -/
theorem binarise_mode_spec :
    (∀ sample d mode th, mode ≠ samplingMode → mode ≠ thresholdMode →
        binarise sample d mode th = none) ∧
    (∀ s1 s2 src one_hot binarised,
        load_mnist s1 src one_hot binarised = load_mnist s2 src one_hot binarised) ∧
    (∀ sample d, (binarise sample d thresholdMode (some 0.2)).isSome = true) := by
  refine ⟨?_, ?_, ?_⟩
  · intro sample d mode th h1 h2
    simp [binarise, h1, h2]
  · intro s1 s2 src one_hot binarised
    cases src <;> rfl
  · intro sample d
    rw [binarise_thresholdMode]
    rfl

/-- Witness for C10 at the concrete mode `"other"` and singleton datasets. -/
theorem binarise_mode_spec_witness :
    binarise (fun a => a.map (fun row => row.map (fun _ => 1))) [[(1 : ℚ)]] ("other") none
        = none ∧
    load_mnist (fun _ => [[1]]) (MnistSource.mldata [[(1 : ℚ)]] [0]) true true =
      load_mnist (fun _ => [[0]]) (MnistSource.mldata [[(1 : ℚ)]] [0]) true true ∧
    (binarise (fun _ => []) [[(1 : ℚ)]] thresholdMode (some 0.2)).isSome = true :=
  ⟨binarise_mode_spec.1 (fun a => a.map (fun row => row.map (fun _ => 1))) [[(1 : ℚ)]]
      ("other") none (by decide) (by decide),
   binarise_mode_spec.2.1 (fun _ => [[1]]) (fun _ => [[0]])
      (MnistSource.mldata [[(1 : ℚ)]] [0]) true true,
   binarise_mode_spec.2.2 (fun _ => []) [[(1 : ℚ)]]⟩

/-- Claim C5: for every model-type string outside `{vae, avb, avb+ac}` both
launcher entry points fail fast with the configuration `ValueError` (the
result carries no events, so no training has run), and for every string in
that set no such error is raised.  The trainer construction itself is
modelled from the spec (the trainer module is absent from `src/`) as
non-failing for the launcher's fixed architectures. -/
theorem unknown_model_configuration_error :
    (∀ model dir1 dir2, model ≠ "vae" → model ≠ "avb" → model ≠ "avb+ac" →
        run_synthetic_experiment dir1 model = Except.error (.valueError unknownModelMsg) ∧
        run_mnist_experiment dir2 model = Except.error (.valueError unknownModelMsg)) ∧
    (∀ model dir1 dir2, model = "vae" ∨ model = "avb" ∨ model = "avb+ac" →
        (∃ r, run_synthetic_experiment dir1 model = Except.ok r) ∧
        (∃ r, run_mnist_experiment dir2 model = Except.ok r)) := by
  constructor
  · intro model dir1 dir2 h1 h2 h3
    constructor <;> simp [run_synthetic_experiment, run_mnist_experiment, h1, h2, h3]
  · intro model dir1 dir2 h
    rcases h with h | h | h <;> subst h <;> exact ⟨⟨_, rfl⟩, ⟨_, rfl⟩⟩

/-- Witness for C5 at the concrete strings `"gan"` (rejected) and `"vae"`
(accepted). -/
theorem unknown_model_configuration_error_witness :
    run_synthetic_experiment ("out") ("gan") = Except.error (.valueError unknownModelMsg) ∧
    (∃ r, run_synthetic_experiment ("out") ("vae") = Except.ok r) :=
  ⟨(unknown_model_configuration_error.1 ("gan") ("out") ("out")
      (by decide) (by decide) (by decide)).1,
   (unknown_model_configuration_error.2 ("vae") ("out") ("out") (Or.inl rfl)).1⟩

/-- Claim C1 (amended): `run_synthetic_experiment('vae')` returns the output
directory, into which it saves `reconstructed_samples.npy` and
`latent_samples.npy` with `sampling_size * n_inputs = 1000 * 2048` rows each,
and `generated_samples.npy` with `n_samples = 100` rows. -/
theorem synthetic_vae_saved_arrays (dir : String) :
    ∃ events, run_synthetic_experiment dir ("vae") = Except.ok (dir, events) ∧
      Event.savedArray reconstructedFile (1000 * 2048) ∈ events ∧
      Event.savedArray latentFile (1000 * 2048) ∈ events ∧
      Event.savedArray generatedFile 100 ∈ events ∧
      (load_npoints 4).data.length = 2048 := by
  have hn : (load_npoints 4).data.length = 2048 := by
    simp [load_npoints, repeatRows_length, eye]
  refine ⟨(syntheticPostTraining dir).2, rfl, ?_, ?_, ?_, hn⟩ <;>
    simp [syntheticPostTraining, reconstruct_rows, infer_rows, generate_rows, hn]

/-- Counterexample to C1 as stated: the `generated_samples.npy` array saved by
`run_synthetic_experiment('vae')` has `100` rows, not
`sampling_size * n_inputs = 1000 * 2048` rows. -/
theorem synthetic_generated_rows_counterexample :
    ∃ r, run_synthetic_experiment ("out") ("vae") = Except.ok r ∧
      Event.savedArray generatedFile (1000 * 2048) ∉ r.2 ∧
      Event.savedArray generatedFile 100 ∈ r.2 := by
  have hn : (load_npoints 4).data.length = 2048 := by
    simp [load_npoints, repeatRows_length, eye]
  refine ⟨syntheticPostTraining ("out"), rfl, ?_, ?_⟩ <;>
    simp [syntheticPostTraining, reconstruct_rows, infer_rows, generate_rows, hn,
      reconstructedFile, latentFile, generatedFile]

/-- The event list of the MNIST launcher is a fixed list, independent of the
output directory; in particular the `latent_dim == 2` plot branch is skipped
(`latent_dim = 8`) and no `clearedSession` event occurs. -/
theorem mnistPostTraining_snd (dir : String) :
    (mnistPostTraining dir).2 =
      [Event.runTraining,
       Event.savedArray reconstructedFile (reconstruct_rows 100 100),
       Event.plottedReconstructed,
       Event.savedArray latentFile (infer_rows 100 100),
       Event.savedArray generatedFile (generate_rows 100),
       Event.plottedSampled] := rfl

/-- Claim C9 (amended): `run_synthetic_experiment` tears down its session with
`clear_session()` as its final action before returning, but
`run_mnist_experiment` returns without any `clear_session()` call, so its
session state is not torn down. -/
theorem clear_session_entry_points :
    (∀ dir model r, run_synthetic_experiment dir model = Except.ok r →
        r.2.getLast? = some Event.clearedSession) ∧
    (∀ dir model r, run_mnist_experiment dir model = Except.ok r →
        Event.clearedSession ∉ r.2) := by
  constructor
  · intro dir model r hr
    unfold run_synthetic_experiment at hr
    split at hr
    · cases hr; rfl
    · split at hr
      · cases hr; rfl
      · split at hr
        · cases hr; rfl
        · cases hr
  · intro dir model r hr
    unfold run_mnist_experiment at hr
    split at hr
    · cases hr; rw [mnistPostTraining_snd]; decide
    · split at hr
      · cases hr; rw [mnistPostTraining_snd]; decide
      · split at hr
        · cases hr; rw [mnistPostTraining_snd]; decide
        · cases hr

/-- Witness for C9 at the concrete directory `"out"` and model `"vae"`. -/
theorem clear_session_entry_points_witness :
    (syntheticPostTraining ("out")).2.getLast? = some Event.clearedSession ∧
    Event.clearedSession ∉ (mnistPostTraining ("out")).2 :=
  ⟨clear_session_entry_points.1 ("out") ("vae") (syntheticPostTraining ("out")) rfl,
   clear_session_entry_points.2 ("out") ("vae") (mnistPostTraining ("out")) rfl⟩

/-- Counterexample to C9 as stated: `run_mnist_experiment` returns without ever
calling `clear_session`. -/
theorem mnist_no_clear_session_counterexample :
    ∃ r, run_mnist_experiment ("out") ("vae") = Except.ok r ∧
      Event.clearedSession ∉ r.2 :=
  ⟨mnistPostTraining ("out"), rfl, by decide⟩

end AVB
